import Mathlib

/-!
Verification development for the review-feed generator (`main.py`).

The script loads a merchant CSV feed (from a `gs://` path, an HTTP(S) URL, or
a local file), builds a Google product_reviews 2.3 XML document from it, and
uploads the result.  We embed the two functions the claims are about:

* `load_csv_anywhere` — source resolution and its error cases, with the
  filesystem / cloud-store / CSV-reader collaborators abstracted into an
  `Env` record of pure functions;
* `generate_reviews_xml` — the XML document builder.  The Python function
  also serializes the tree to a file; here it returns the built tree (the
  serialization is collaborator glue with no bearing on the claims).
  Randomness (`fake.name()`, `fake.date_time_between`, `random.choice`,
  `random.randint(4, 5)`) is modelled as an oracle `RandOracle` of draw streams
  indexed by the emission counter: `random.choice` over a 5-element list
  becomes an arbitrary `Fin 5` index, `random.randint(4, 5)` an arbitrary
  `Fin 2` offset added to 4.

A pandas DataFrame read with `dtype=str` is modelled as a column-name list
plus one lookup function per row; `row.get(c, dflt)` consults the column
list (a pandas row carries the frame's full column index), `row[c]` reads
the cell directly.
-/

/-- XML element, mirroring `xml.etree.ElementTree.Element`: a tag, an
attribute list, optional text, and child elements. -/
inductive Element : Type where
  | mk : String → List (String × String) → Option String → List Element → Element

def Element.tag : Element → String
  | .mk t _ _ _ => t

def Element.attrib : Element → List (String × String)
  | .mk _ a _ _ => a

def Element.text : Element → Option String
  | .mk _ _ x _ => x

def Element.children : Element → List Element
  | .mk _ _ _ c => c

/-- A pandas DataFrame loaded with `dtype=str`: column names plus a cell
lookup per row. -/
structure DataFrame where
  cols : List String
  rows : List (String → String)

/-- The randomness consumed per emitted review, indexed by the review
counter: Faker name, Faker timestamp (already ISO-rendered), the
`random.choice` indices into the two 5-element pools, and the
`random.randint(4, 5)` draw as an offset from 4. -/
structure RandOracle where
  reviewerName : Nat → String
  timestampIso : Nat → String
  titleIdx : Nat → Fin 5
  contentIdx : Nat → Fin 5
  ratingIdx : Nat → Fin 2

/-- The fixed pool of review headlines (`titles` in `main.py`). -/
def titles : List String :=
  ["Absolutely Stunning",
   "Perfect in Every Way",
   "Exceeded My Expectations",
   "Brilliant Sparkle",
   "Impeccable Quality"]

/-- The fixed pool of review bodies (`templates` in `main.py`). -/
def templates : List String :=
  ["I’m so impressed with my diamond! The cut is flawless and shipping was super fast.",
   "What a beautiful diamond—its brilliance really caught everyone’s eye at my event.",
   "Great experience from start to finish. The stone arrived exactly as described.",
   "Fantastic service and the stone looks even better in person. Highly recommend!",
   "Very happy with my purchase—exceptional quality and clear, bright sparkle."]

def xsiNs : String := "http://www.w3.org/2001/XMLSchema-instance"

def schemaLoc : String :=
  "http://www.google.com/shopping/reviews/schema/product/2.3/product_reviews.xsd"

/-- Leaf element with only text, as built by `ET.SubElement(..).text = ..`. -/
def textEl (t s : String) : Element := .mk t [] (some s) []

/-- One `review` element, as built by the inner loop body of
`generate_reviews_xml` for product id `pid`, product URL `url`, display
name `name`, counter value `rid`. -/
def mkReview (pid url name : String) (rid : Nat) (rnd : RandOracle) : Element :=
  Element.mk "review" [] none
    [textEl "review_id" (toString rid),
     Element.mk "reviewer" [] none [textEl "name" (rnd.reviewerName rid)],
     textEl "review_timestamp" (rnd.timestampIso rid),
     textEl "title" (titles.getD (rnd.titleIdx rid).val ""),
     textEl "content" (templates.getD (rnd.contentIdx rid).val ""),
     Element.mk "review_url" [("type", "singleton")] (some url) [],
     Element.mk "ratings" [] none
       [Element.mk "overall" [("min", "1"), ("max", "5")]
         (some (toString (4 + (rnd.ratingIdx rid).val))) []],
     Element.mk "products" [] none
       [Element.mk "product" [] none
         [Element.mk "product_ids" [] none
           [Element.mk "gtins" [] none [textEl "gtin" (pid ++ "CA")],
            Element.mk "mpns" [] none [textEl "mpn" pid],
            Element.mk "brands" [] none [textEl "brand" "Leela Diamonds"]],
          textEl "product_name" name,
          textEl "product_url" url]]]

/-- The required-columns list — `required_cols = {"id", "link", "title"}` in
`main.py` (a Python set; we fix one enumeration order). -/
def requiredCols : List String := ["id", "link", "title"]

/-- `name = str(row.get("title", pid))`: a pandas row lookup falls back to
the default exactly when the column is absent from the frame. -/
def rowName (df : DataFrame) (r : String → String) : String :=
  if df.cols.contains "title" then r "title" else r "id"

/-- The `for _ in range(max(0, int(n_per_product)))` inner loop for one row:
`reps` reviews whose counter values are `startId, startId+1, …`. -/
def rowReviewBlock (df : DataFrame) (r : String → String) (startId reps : Nat)
    (rnd : RandOracle) : List Element :=
  (List.range reps).map (fun j => mkReview (r "id") (r "link") (rowName df r) (startId + j) rnd)

/-- The outer `for _, row in df.iterrows()` loop: each row appends its block
to `reviews_el` and advances the counter by one per emitted review. -/
def buildRows (df : DataFrame) (rnd : RandOracle) (reps : Nat) :
    List (String → String) → Nat → List Element
  | [], _ => []
  | r :: rs, rid => rowReviewBlock df r rid reps rnd ++ buildRows df rnd reps rs (rid + reps)

/-- The document skeleton built before the loops: feed attributes, version,
publisher block, and the `reviews` container holding `cs`. -/
def feedSkeleton (cs : List Element) : Element :=
  Element.mk "feed"
    [("xmlns:xsi", xsiNs), ("xsi:noNamespaceSchemaLocation", schemaLoc)] none
    [textEl "version" "2.3",
     Element.mk "publisher" [] none
       [textEl "name" "Leela Diamonds Reviews",
        textEl "favicon" "https://leeladiamond.com/favicon.png"],
     Element.mk "reviews" [] none cs]

/-- `missing = [c for c in required_cols if c not in df.columns]`. -/
def missingCols (df : DataFrame) : List String :=
  requiredCols.filter (fun c => !(df.cols.contains c))

/-- `generate_reviews_xml(df, output_path, n_per_product)` from `main.py`,
returning the built tree, or the `ValueError` message when a required
column is missing. -/
def generate_reviews_xml (df : DataFrame) (nPerProduct : Int) (rnd : RandOracle) :
    Except String Element :=
  if missingCols df = [] then
    Except.ok (feedSkeleton (buildRows df rnd (max 0 nPerProduct).toNat df.rows 1))
  else
    Except.error ("CSV missing required columns: " ++ toString (missingCols df)
      ++ ". Found: " ++ toString df.cols)

/-- The Python exceptions `load_csv_anywhere` raises; the spec taxonomy
calls the `ValueError` cases `InvalidSourceError` and the
`FileNotFoundError` cases `SourceNotFoundError`. -/
inductive LoadError where
  | valueError : String → LoadError
  | fileNotFound : String → LoadError

/-- Collaborators of the loader, abstracted: does a cloud object exist and
what does it parse to; does a local path exist; what does the CSV reader
return for a URL or local path. -/
structure Env where
  blobExists : String → String → Bool
  blobCsv : String → String → DataFrame
  localExists : String → Bool
  readCsv : String → DataFrame

/-- Python `s.strip()` — leading and trailing whitespace removed. -/
def pyStrip (s : String) : String :=
  ⟨((s.data.dropWhile Char.isWhitespace).reverse.dropWhile Char.isWhitespace).reverse⟩

/-- Python `s.startswith(pre)`. -/
def pyStartsWith (s pre : String) : Bool :=
  pre.data.isPrefixOf s.data

/-- Python `s[n:]`. -/
def pyDrop (s : String) (n : Nat) : String := ⟨s.data.drop n⟩

/-- Python `s.partition("/")`, keeping the before/after parts: everything
before the first "/" and everything after it ("" when there is none). -/
def partitionSlash (s : String) : String × String :=
  (⟨s.data.takeWhile (fun c => !(c == '/'))⟩,
   ⟨(s.data.dropWhile (fun c => !(c == '/'))).drop 1⟩)

/-- `load_csv_anywhere(src)` from `main.py` — `src = (src or "").strip()`,
then the `gs://`, `http(s)://` and local-path branches in source order
(`bucket_name, _, blob_path = without.partition("/")` is written out as the
two projections of `partitionSlash`). -/
def load_csv_anywhere (env : Env) (src0 : String) : Except LoadError DataFrame :=
  if pyStrip src0 = "" then
    Except.error (.valueError "csv-source is empty. Provide a URL, local path, or gs:// path.")
  else if pyStartsWith (pyStrip src0) "gs://" then
    if (partitionSlash (pyDrop (pyStrip src0) 5)).1 = "" ∨ (partitionSlash (pyDrop (pyStrip src0) 5)).2 = "" then
      Except.error (.valueError ("Invalid GCS path: " ++ pyStrip src0))
    else if !(env.blobExists (partitionSlash (pyDrop (pyStrip src0) 5)).1
        (partitionSlash (pyDrop (pyStrip src0) 5)).2) then
      Except.error (.fileNotFound ("GCS object not found: " ++ pyStrip src0))
    else
      Except.ok (env.blobCsv (partitionSlash (pyDrop (pyStrip src0) 5)).1
        (partitionSlash (pyDrop (pyStrip src0) 5)).2)
  else if pyStartsWith (pyStrip src0) "http://" ∨ pyStartsWith (pyStrip src0) "https://" then
    Except.ok (env.readCsv (pyStrip src0))
  else if !(env.localExists (pyStrip src0)) then
    Except.error (.fileNotFound ("Local CSV not found: " ++ pyStrip src0))
  else
    Except.ok (env.readCsv (pyStrip src0))

/-- First child with the given tag, as position-independent access to the
built tree. -/
def findChild (e : Element) (t : String) : Option Element :=
  e.children.find? (fun c => c.tag == t)

/-- Chase a tag path down the tree. -/
def descend (e : Element) : List String → Option Element
  | [] => some e
  | t :: ts =>
    match findChild e t with
    | some c => descend c ts
    | none => none

/-- The children of the document's `reviews` node ([] when absent). -/
def reviewsChildren (doc : Element) : List Element :=
  match findChild doc "reviews" with
  | some r => r.children
  | none => []

def reviewIdText (e : Element) : Option String := (findChild e "review_id").bind Element.text

def titleText (e : Element) : Option String := (findChild e "title").bind Element.text

def contentText (e : Element) : Option String := (findChild e "content").bind Element.text

def ratingText (e : Element) : Option String :=
  (descend e ["ratings", "overall"]).bind Element.text

def gtinText (e : Element) : Option String :=
  (descend e ["products", "product", "product_ids", "gtins", "gtin"]).bind Element.text

def mpnText (e : Element) : Option String :=
  (descend e ["products", "product", "product_ids", "mpns", "mpn"]).bind Element.text

def brandText (e : Element) : Option String :=
  (descend e ["products", "product", "product_ids", "brands", "brand"]).bind Element.text

def productNameText (e : Element) : Option String :=
  (descend e ["products", "product", "product_name"]).bind Element.text

def isOkE (x : Except String Element) : Bool :=
  match x with
  | .ok _ => true
  | .error _ => false

def emptyEl : Element := Element.mk "" [] none []

def okOr (x : Except String Element) : Element :=
  match x with
  | .ok d => d
  | .error _ => emptyEl

/-- Default row used only to state positional access (`List.getD`). -/
def dfltRow : String → String := fun _ => ""

theorem contains_eq_true_iff (l : List String) (a : String) :
    l.contains a = true ↔ a ∈ l :=
  ⟨List.mem_of_elem_eq_true, List.elem_eq_true_of_mem⟩

theorem reviewIdText_mkReview (p u nm : String) (k : Nat) (rnd : RandOracle) :
    reviewIdText (mkReview p u nm k rnd) = some (toString k) := rfl

theorem reviewsChildren_feedSkeleton (cs : List Element) :
    reviewsChildren (feedSkeleton cs) = cs := rfl

theorem buildRows_length (df : DataFrame) (rnd : RandOracle) (reps : Nat)
    (rs : List (String → String)) : ∀ rid : Nat,
    (buildRows df rnd reps rs rid).length = rs.length * reps := by
  induction rs with
  | nil => intro rid; simp [buildRows]
  | cons r rs ih =>
    intro rid
    simp [buildRows, rowReviewBlock, ih]
    ring

theorem buildRows_map_ids (df : DataFrame) (rnd : RandOracle) (reps : Nat)
    (rs : List (String → String)) : ∀ rid : Nat,
    (buildRows df rnd reps rs rid).map reviewIdText
      = (List.range (rs.length * reps)).map (fun k => some (toString (rid + k))) := by
  induction rs with
  | nil => intro rid; simp [buildRows]
  | cons r rs ih =>
    intro rid
    have hsplit : (r :: rs).length * reps = reps + rs.length * reps := by
      simp [List.length_cons]; ring
    rw [show buildRows df rnd reps (r :: rs) rid
          = rowReviewBlock df r rid reps rnd ++ buildRows df rnd reps rs (rid + reps) from rfl,
        List.map_append, hsplit, List.range_add, List.map_append, ih (rid + reps)]
    congr 1
    · simp only [rowReviewBlock, List.map_map]
      rfl
    · rw [List.map_map]
      apply List.map_congr_left
      intro x _
      simp only [Function.comp]
      rw [Nat.add_assoc]

theorem buildRows_grouped (df : DataFrame) (rnd : RandOracle) (reps : Nat)
    (rs : List (String → String)) : ∀ rid : Nat,
    buildRows df rnd reps rs rid
      = ((List.range rs.length).map (fun i =>
          rowReviewBlock df (rs.getD i dfltRow) (rid + i * reps) reps rnd)).flatten := by
  induction rs with
  | nil => intro rid; simp [buildRows]
  | cons r rs ih =>
    intro rid
    rw [show buildRows df rnd reps (r :: rs) rid
          = rowReviewBlock df r rid reps rnd ++ buildRows df rnd reps rs (rid + reps) from rfl]
    rw [ih (rid + reps), List.length_cons, List.range_succ_eq_map]
    simp only [List.map_cons, List.flatten_cons, List.map_map]
    congr 1
    · simp [dfltRow]
    · congr 1
      apply List.map_congr_left
      intro i _
      simp only [Function.comp, List.getD_cons_succ]
      have h3 : rid + reps + i * reps = rid + Nat.succ i * reps := by
        rw [Nat.succ_mul]; omega
      rw [h3]

theorem mem_buildRows (df : DataFrame) (rnd : RandOracle) (reps : Nat)
    (rs : List (String → String)) : ∀ (rid : Nat) (e : Element),
    e ∈ buildRows df rnd reps rs rid →
    ∃ r, r ∈ rs ∧ ∃ k, e = mkReview (r "id") (r "link") (rowName df r) k rnd := by
  induction rs with
  | nil => intro rid e h; simp [buildRows] at h
  | cons r rs ih =>
    intro rid e h
    rw [show buildRows df rnd reps (r :: rs) rid
          = rowReviewBlock df r rid reps rnd ++ buildRows df rnd reps rs (rid + reps) from rfl,
        List.mem_append] at h
    rcases h with h | h
    · simp only [rowReviewBlock, List.mem_map] at h
      obtain ⟨j, _, rfl⟩ := h
      exact ⟨r, List.mem_cons_self r rs, rid + j, rfl⟩
    · obtain ⟨r2, hr2, k, hk⟩ := ih (rid + reps) e h
      exact ⟨r2, List.mem_cons_of_mem _ hr2, k, hk⟩

theorem generate_ok_elim {df : DataFrame} {n : Int} {rnd : RandOracle} {doc : Element}
    (h : generate_reviews_xml df n rnd = Except.ok doc) :
    missingCols df = [] ∧
    doc = feedSkeleton (buildRows df rnd (max 0 n).toNat df.rows 1) := by
  unfold generate_reviews_xml at h
  by_cases hm : missingCols df = []
  · rw [if_pos hm] at h
    injection h with h2
    exact ⟨hm, h2.symm⟩
  · rw [if_neg hm] at h
    exact absurd h (by simp)

theorem generate_error_elim {df : DataFrame} {n : Int} {rnd : RandOracle} {msg : String}
    (h : generate_reviews_xml df n rnd = Except.error msg) :
    missingCols df ≠ [] ∧
    msg = "CSV missing required columns: " ++ toString (missingCols df)
      ++ ". Found: " ++ toString df.cols := by
  unfold generate_reviews_xml at h
  by_cases hm : missingCols df = []
  · rw [if_pos hm] at h
    exact absurd h (by simp)
  · rw [if_neg hm] at h
    injection h with h2
    exact ⟨hm, h2.symm⟩

theorem missingCols_eq_nil_iff (df : DataFrame) :
    missingCols df = [] ↔ ("id" ∈ df.cols ∧ "link" ∈ df.cols ∧ "title" ∈ df.cols) := by
  simp [missingCols, requiredCols, List.filter_eq_nil_iff, contains_eq_true_iff]

/-- Concrete row used by the witnesses: `{id: SKU1, link: https://x/y, title: Ring A}`. -/
def rowW : String → String := fun c =>
  if c = "id" then "SKU1" else if c = "link" then "https://x/y"
  else if c = "title" then "Ring A" else ""

/-- Concrete single-row frame with all three recognized columns. -/
def dfW : DataFrame := ⟨["id", "link", "title"], [rowW]⟩

/-- Concrete draw streams for the witnesses. -/
def rndW : RandOracle :=
  ⟨fun _ => "Jane Doe", fun _ => "2025-06-01T00:00:00+00:00", fun _ => 0, fun _ => 1, fun _ => 1⟩

/-- The document the builder produces on `dfW` with one review per product. -/
def docW : Element := okOr (generate_reviews_xml dfW 1 rndW)

/-- C1: for every input and every repeat count N ≥ 0, a successfully built
document holds exactly N × |rows| review nodes; their review_id texts are
exactly "1", "2", …, "N × |rows|" in emission order; and the node list is
the concatenation, over the rows in input order, of each row's block of N
consecutive reviews (row i's block starting at counter 1 + i·N). -/
theorem generate_reviews_xml_count_and_ids (df : DataFrame) (n : Int) (rnd : RandOracle)
    (doc : Element) (hn : 0 ≤ n) (hok : generate_reviews_xml df n rnd = Except.ok doc) :
    (reviewsChildren doc).length = n.toNat * df.rows.length ∧
    (reviewsChildren doc).map reviewIdText
      = (List.range (n.toNat * df.rows.length)).map (fun k => some (toString (k + 1))) ∧
    reviewsChildren doc
      = ((List.range df.rows.length).map (fun i =>
          rowReviewBlock df (df.rows.getD i dfltRow) (1 + i * n.toNat) n.toNat rnd)).flatten := by
  obtain ⟨-, rfl⟩ := generate_ok_elim hok
  have hmax : (max 0 n).toNat = n.toNat := by rw [max_eq_right hn]
  rw [reviewsChildren_feedSkeleton, hmax]
  refine ⟨?_, ?_, ?_⟩
  · rw [buildRows_length, Nat.mul_comm]
  · rw [buildRows_map_ids, Nat.mul_comm]
    apply List.map_congr_left
    intro k _
    rw [Nat.add_comm]
  · exact buildRows_grouped df rnd n.toNat df.rows 1

/-- C1 witness: one row, N = 1 — one review, review_id "1". -/
theorem generate_reviews_xml_count_and_ids_witness :
    (0 : Int) ≤ 1 ∧ generate_reviews_xml dfW 1 rndW = Except.ok docW ∧
    (reviewsChildren docW).length = (1 : Int).toNat * dfW.rows.length ∧
    (reviewsChildren docW).map reviewIdText = [some "1"] := by
  refine ⟨by decide, rfl, ?_, ?_⟩
  · exact (generate_reviews_xml_count_and_ids dfW 1 rndW docW (by decide) rfl).1
  · have h := (generate_reviews_xml_count_and_ids dfW 1 rndW docW (by decide) rfl).2.1
    rw [h]
    rfl

/-- Row with an empty `id` cell (columns all present). -/
def rowEmptyId : String → String := fun c =>
  if c = "link" then "https://x/y" else if c = "title" then "T" else ""

/-- Frame whose single record has `id` equal to the empty string. -/
def dfEmptyId : DataFrame := ⟨["id", "link", "title"], [rowEmptyId]⟩

/-- C2 counterexample: a record with `id` = "" does NOT make the build fail —
the document is produced and contains a review (whose gtin is just "CA"). -/
theorem generate_reviews_xml_accepts_empty_id :
    isOkE (generate_reviews_xml dfEmptyId 1 rndW) = true ∧
    (reviewsChildren (okOr (generate_reviews_xml dfEmptyId 1 rndW))).length = 1 ∧
    gtinText ((reviewsChildren (okOr (generate_reviews_xml dfEmptyId 1 rndW))).headD emptyEl)
      = some "CA" :=
  ⟨rfl, rfl, rfl⟩

/-- C2 amended: the build fails exactly when one of the columns `id`,
`link`, `title` is absent from the frame's columns, and then the error
names the missing columns and the columns present; cell values (including
empty strings) are never inspected. -/
theorem generate_reviews_xml_missing_column_error (df : DataFrame) (n : Int)
    (rnd : RandOracle) :
    (isOkE (generate_reviews_xml df n rnd) = false
       ↔ ¬ ("id" ∈ df.cols ∧ "link" ∈ df.cols ∧ "title" ∈ df.cols)) ∧
    (¬ ("id" ∈ df.cols ∧ "link" ∈ df.cols ∧ "title" ∈ df.cols) →
       generate_reviews_xml df n rnd
         = Except.error ("CSV missing required columns: " ++ toString (missingCols df)
             ++ ". Found: " ++ toString df.cols)) := by
  constructor
  · by_cases hm : missingCols df = []
    · simp [generate_reviews_xml, hm, isOkE, (missingCols_eq_nil_iff df).mp hm]
    · simp only [generate_reviews_xml, if_neg hm, isOkE, true_iff]
      exact (not_congr (missingCols_eq_nil_iff df)).mp hm
  · intro h
    have hm : missingCols df ≠ [] := fun he => h ((missingCols_eq_nil_iff df).mp he)
    simp [generate_reviews_xml, hm]

/-- Frame with only an `id` column. -/
def dfOnlyId : DataFrame := ⟨["id"], []⟩

/-- C2 amended witness: a frame missing `link` and `title` fails with the
error naming them and the column present. -/
theorem generate_reviews_xml_missing_column_error_witness :
    isOkE (generate_reviews_xml dfOnlyId 2 rndW) = false ∧
    generate_reviews_xml dfOnlyId 2 rndW
      = Except.error "CSV missing required columns: [link, title]. Found: [id]" := by
  have h := generate_reviews_xml_missing_column_error dfOnlyId 2 rndW
  exact ⟨h.1.mpr (by decide), h.2 (by decide)⟩

/-- C3: in every successfully built document, every review node carries a
gtin equal to its record's id followed by "CA", an mpn equal to the id
verbatim, and the constant brand "Leela Diamonds". -/
theorem generate_reviews_xml_product_ids (df : DataFrame) (n : Int) (rnd : RandOracle)
    (doc : Element) (hok : generate_reviews_xml df n rnd = Except.ok doc) :
    ∀ e ∈ reviewsChildren doc, ∃ r, r ∈ df.rows ∧
      gtinText e = some (r "id" ++ "CA") ∧ mpnText e = some (r "id") ∧
      brandText e = some "Leela Diamonds" := by
  obtain ⟨-, rfl⟩ := generate_ok_elim hok
  rw [reviewsChildren_feedSkeleton]
  intro e he
  obtain ⟨r, hr, k, rfl⟩ := mem_buildRows _ _ _ _ _ _ he
  exact ⟨r, hr, rfl, rfl, rfl⟩

/-- C3 witness: on the concrete one-row frame the review's gtin, mpn and
brand are "SKU1CA", "SKU1" and "Leela Diamonds". -/
theorem generate_reviews_xml_product_ids_witness :
    generate_reviews_xml dfW 1 rndW = Except.ok docW ∧
    gtinText ((reviewsChildren docW).headD emptyEl) = some "SKU1CA" ∧
    mpnText ((reviewsChildren docW).headD emptyEl) = some "SKU1" ∧
    brandText ((reviewsChildren docW).headD emptyEl) = some "Leela Diamonds" := by
  have hmem : (reviewsChildren docW).headD emptyEl ∈ reviewsChildren docW := by
    have h1 : reviewsChildren docW = (reviewsChildren docW).headD emptyEl :: [] := rfl
    rw [h1]
    exact List.mem_cons_self _ _
  obtain ⟨r, hr, hg, hm2, hb⟩ :=
    generate_reviews_xml_product_ids dfW 1 rndW docW rfl _ hmem
  have hrw : r = rowW := List.mem_singleton.mp hr
  subst hrw
  exact ⟨rfl, hg, hm2, hb⟩

/-- Record lacking any `title` cell. -/
def rowNoTitle : String → String := fun c => if c = "id" then "SKU1" else "https://x/y"

/-- Frame whose columns carry no `title` at all. -/
def dfNoTitle : DataFrame := ⟨["id", "link"], [rowNoTitle]⟩

/-- C4: when `title` is absent from a record the code errors out instead of
falling back to `id` — the `row.get("title", pid)` default (modelled by
`rowName`, which would indeed yield the id "SKU1" here) is unreachable
because the defensive check counts `title` among the required columns. -/
theorem generate_reviews_xml_title_fallback_unreachable :
    generate_reviews_xml dfNoTitle 1 rndW
      = Except.error "CSV missing required columns: [title]. Found: [id, link]" ∧
    rowName dfNoTitle rowNoTitle = "SKU1" :=
  ⟨rfl, rfl⟩

theorem titleText_mkReview (p u nm : String) (k : Nat) (rnd : RandOracle) :
    titleText (mkReview p u nm k rnd) = some (titles.getD (rnd.titleIdx k).val "") := rfl

theorem contentText_mkReview (p u nm : String) (k : Nat) (rnd : RandOracle) :
    contentText (mkReview p u nm k rnd) = some (templates.getD (rnd.contentIdx k).val "") := rfl

theorem ratingText_mkReview (p u nm : String) (k : Nat) (rnd : RandOracle) :
    ratingText (mkReview p u nm k rnd) = some (toString (4 + (rnd.ratingIdx k).val)) := rfl

theorem getD_mem_of_lt {l : List String} {i : Nat} (h : i < l.length) (d : String) :
    l.getD i d ∈ l := by
  rw [List.getD_eq_getElem l d h]
  exact List.getElem_mem h

/-- C5: in every successfully built document, every review's title comes
from the fixed 5-headline pool, every content from the fixed 5-template
pool, and every rating renders as "4" or "5". -/
theorem generate_reviews_xml_pools (df : DataFrame) (n : Int) (rnd : RandOracle)
    (doc : Element) (hok : generate_reviews_xml df n rnd = Except.ok doc) :
    ∀ e ∈ reviewsChildren doc,
      (∃ t, t ∈ titles ∧ titleText e = some t) ∧
      (∃ c, c ∈ templates ∧ contentText e = some c) ∧
      (ratingText e = some "4" ∨ ratingText e = some "5") := by
  obtain ⟨-, rfl⟩ := generate_ok_elim hok
  rw [reviewsChildren_feedSkeleton]
  intro e he
  obtain ⟨r, _, k, rfl⟩ := mem_buildRows _ _ _ _ _ _ he
  refine ⟨?_, ?_, ?_⟩
  · exact ⟨titles.getD (rnd.titleIdx k).val "",
      getD_mem_of_lt (show (rnd.titleIdx k).val < titles.length from (rnd.titleIdx k).isLt) "",
      titleText_mkReview _ _ _ _ _⟩
  · exact ⟨templates.getD (rnd.contentIdx k).val "",
      getD_mem_of_lt
        (show (rnd.contentIdx k).val < templates.length from (rnd.contentIdx k).isLt) "",
      contentText_mkReview _ _ _ _ _⟩
  · have hv : (rnd.ratingIdx k).val = 0 ∨ (rnd.ratingIdx k).val = 1 := by
      have := (rnd.ratingIdx k).isLt
      omega
    rw [ratingText_mkReview]
    rcases hv with h | h
    · left; rw [h]; rfl
    · right; rw [h]; rfl

/-- C5 witness: with the concrete draws (title index 0, content index 1,
rating offset 1) the review carries the first headline, the second
template, and rating "5". -/
theorem generate_reviews_xml_pools_witness :
    generate_reviews_xml dfW 1 rndW = Except.ok docW ∧
    titleText ((reviewsChildren docW).headD emptyEl) = some "Absolutely Stunning" ∧
    contentText ((reviewsChildren docW).headD emptyEl)
      = some "What a beautiful diamond—its brilliance really caught everyone’s eye at my event." ∧
    ratingText ((reviewsChildren docW).headD emptyEl) = some "5" := by
  have hmem : (reviewsChildren docW).headD emptyEl ∈ reviewsChildren docW := by
    have h1 : reviewsChildren docW = (reviewsChildren docW).headD emptyEl :: [] := rfl
    rw [h1]
    exact List.mem_cons_self _ _
  obtain ⟨⟨t, _, ht⟩, ⟨c, _, hc⟩, hr45⟩ :=
    generate_reviews_xml_pools dfW 1 rndW docW rfl _ hmem
  refine ⟨rfl, rfl, rfl, ?_⟩
  rcases hr45 with h | h
  · exact absurd h (by decide)
  · exact h

/-- Structural checklist for one review node: the child tags in emission
order, the singleton review_url attribute, the overall rating bounds, and
the nested products/product/product_ids subtree. -/
def reviewShapeOK : Element → Bool
  | .mk "review" [] _
      [.mk "review_id" [] _ [],
       .mk "reviewer" [] _ [.mk "name" [] _ []],
       .mk "review_timestamp" [] _ [],
       .mk "title" [] _ [],
       .mk "content" [] _ [],
       .mk "review_url" [("type", "singleton")] _ [],
       .mk "ratings" [] _ [.mk "overall" [("min", "1"), ("max", "5")] _ []],
       .mk "products" [] _
         [.mk "product" [] _
           [.mk "product_ids" [] _
             [.mk "gtins" [] _ [.mk "gtin" [] _ []],
              .mk "mpns" [] _ [.mk "mpn" [] _ []],
              .mk "brands" [] _ [.mk "brand" [] _ []]],
            .mk "product_name" [] _ [],
            .mk "product_url" [] _ []]]] => true
  | _ => false

theorem reviewShapeOK_mkReview (p u nm : String) (k : Nat) (rnd : RandOracle) :
    reviewShapeOK (mkReview p u nm k rnd) = true := rfl

/-- C6: every successfully built document has root "feed" carrying the xsi
namespace and schema-location attributes, a version child with text "2.3",
the fixed publisher name and favicon, a reviews child, and every review
node passes the per-review structural checklist (review_id, reviewer/name,
review_timestamp, title, content, review_url type="singleton",
ratings/overall min="1" max="5", products/product with
product_ids/gtins/gtin, mpns/mpn, brands/brand, product_name,
product_url). -/
theorem generate_reviews_xml_document_shape (df : DataFrame) (n : Int)
    (rnd : RandOracle) (doc : Element)
    (hok : generate_reviews_xml df n rnd = Except.ok doc) :
    doc.tag = "feed" ∧
    doc.attrib = [("xmlns:xsi", xsiNs), ("xsi:noNamespaceSchemaLocation", schemaLoc)] ∧
    (findChild doc "version").bind Element.text = some "2.3" ∧
    (descend doc ["publisher", "name"]).bind Element.text = some "Leela Diamonds Reviews" ∧
    (descend doc ["publisher", "favicon"]).bind Element.text
      = some "https://leeladiamond.com/favicon.png" ∧
    (findChild doc "reviews").isSome = true ∧
    ∀ e ∈ reviewsChildren doc, reviewShapeOK e = true := by
  obtain ⟨-, rfl⟩ := generate_ok_elim hok
  refine ⟨rfl, rfl, rfl, rfl, rfl, rfl, ?_⟩
  rw [reviewsChildren_feedSkeleton]
  intro e he
  obtain ⟨r, _, k, rfl⟩ := mem_buildRows _ _ _ _ _ _ he
  exact reviewShapeOK_mkReview _ _ _ _ _

/-- C6 witness: the concrete one-review document has the feed shape and its
review passes the checklist. -/
theorem generate_reviews_xml_document_shape_witness :
    generate_reviews_xml dfW 1 rndW = Except.ok docW ∧
    docW.tag = "feed" ∧
    reviewShapeOK ((reviewsChildren docW).headD emptyEl) = true := by
  have h := generate_reviews_xml_document_shape dfW 1 rndW docW rfl
  have hmem : (reviewsChildren docW).headD emptyEl ∈ reviewsChildren docW := by
    have h1 : reviewsChildren docW = (reviewsChildren docW).headD emptyEl :: [] := rfl
    rw [h1]
    exact List.mem_cons_self _ _
  exact ⟨rfl, h.1, h.2.2.2.2.2.2 _ hmem⟩

theorem buildRows_reps_zero (df : DataFrame) (rnd : RandOracle)
    (rs : List (String → String)) : ∀ rid : Nat, buildRows df rnd 0 rs rid = [] := by
  induction rs with
  | nil => intro rid; rfl
  | cons r rs ih =>
    intro rid
    rw [show buildRows df rnd 0 (r :: rs) rid
          = rowReviewBlock df r rid 0 rnd ++ buildRows df rnd 0 rs (rid + 0) from rfl,
        ih (rid + 0)]
    rfl

/-- Record lacking any `id` cell. -/
def rowNoId : String → String := fun c => if c = "link" then "https://x/y" else "T"

/-- Frame whose columns carry no `id`. -/
def dfNoId : DataFrame := ⟨["link", "title"], [rowNoId]⟩

/-- C7 counterexample: with N = 0 the builder still fails on a frame whose
columns lack `id` — it does not succeed on every input record sequence. -/
theorem generate_reviews_xml_n_zero_can_error :
    generate_reviews_xml dfNoId 0 rndW
      = Except.error "CSV missing required columns: [id]. Found: [link, title]" := rfl

/-- C7 amended: for N = 0 on any input whose columns include `id`, `link`
and `title`, the build succeeds, the reviews node exists, and it has no
review children. -/
theorem generate_reviews_xml_n_zero_empty (df : DataFrame) (rnd : RandOracle)
    (h1 : "id" ∈ df.cols) (h2 : "link" ∈ df.cols) (h3 : "title" ∈ df.cols) :
    isOkE (generate_reviews_xml df 0 rnd) = true ∧
    (findChild (okOr (generate_reviews_xml df 0 rnd)) "reviews").isSome = true ∧
    reviewsChildren (okOr (generate_reviews_xml df 0 rnd)) = [] := by
  have hm : missingCols df = [] := (missingCols_eq_nil_iff df).mpr ⟨h1, h2, h3⟩
  have hgen : generate_reviews_xml df 0 rnd
      = Except.ok (feedSkeleton (buildRows df rnd 0 df.rows 1)) := by
    unfold generate_reviews_xml
    rw [if_pos hm, show ((max 0 0 : Int)).toNat = 0 by decide]
  rw [hgen]
  refine ⟨rfl, rfl, ?_⟩
  show reviewsChildren (feedSkeleton (buildRows df rnd 0 df.rows 1)) = []
  rw [reviewsChildren_feedSkeleton]
  exact buildRows_reps_zero df rnd df.rows 1

/-- C7 amended witness: the concrete full-column frame with N = 0. -/
theorem generate_reviews_xml_n_zero_empty_witness :
    ("id" ∈ dfW.cols ∧ "link" ∈ dfW.cols ∧ "title" ∈ dfW.cols) ∧
    isOkE (generate_reviews_xml dfW 0 rndW) = true ∧
    reviewsChildren (okOr (generate_reviews_xml dfW 0 rndW)) = [] := by
  have h := generate_reviews_xml_n_zero_empty dfW rndW (by decide) (by decide) (by decide)
  exact ⟨⟨by decide, by decide, by decide⟩, h.1, h.2.2⟩

/-- C10 counterexample: a negative repeat count does not shield the builder
from failing — on a frame whose columns lack `id` it still errors. -/
theorem generate_reviews_xml_negative_n_can_error :
    generate_reviews_xml dfNoId (-3) rndW
      = Except.error "CSV missing required columns: [id]. Found: [link, title]" := rfl

/-- C10 amended: for every negative repeat count the builder behaves
exactly as if the count were 0 (identical result, error or document); in
particular, when the columns `id`, `link`, `title` are present it succeeds
with an empty reviews node. -/
theorem generate_reviews_xml_negative_n (df : DataFrame) (n : Int) (rnd : RandOracle)
    (hn : n < 0) :
    generate_reviews_xml df n rnd = generate_reviews_xml df 0 rnd ∧
    (("id" ∈ df.cols ∧ "link" ∈ df.cols ∧ "title" ∈ df.cols) →
      isOkE (generate_reviews_xml df n rnd) = true ∧
      reviewsChildren (okOr (generate_reviews_xml df n rnd)) = []) := by
  have hz : (max 0 n).toNat = 0 := by
    rw [max_eq_left (le_of_lt hn)]
    rfl
  constructor
  · unfold generate_reviews_xml
    rw [hz]
    rfl
  · rintro ⟨h1, h2, h3⟩
    have hm : missingCols df = [] := (missingCols_eq_nil_iff df).mpr ⟨h1, h2, h3⟩
    have hgen : generate_reviews_xml df n rnd
        = Except.ok (feedSkeleton (buildRows df rnd 0 df.rows 1)) := by
      unfold generate_reviews_xml
      rw [if_pos hm, hz]
    rw [hgen]
    refine ⟨rfl, ?_⟩
    show reviewsChildren (feedSkeleton (buildRows df rnd 0 df.rows 1)) = []
    rw [reviewsChildren_feedSkeleton]
    exact buildRows_reps_zero df rnd df.rows 1

/-- C10 amended witness: N = -2 on the concrete frame equals the N = 0 run
and yields an empty reviews node. -/
theorem generate_reviews_xml_negative_n_witness :
    (-2 : Int) < 0 ∧
    generate_reviews_xml dfW (-2) rndW = generate_reviews_xml dfW 0 rndW ∧
    isOkE (generate_reviews_xml dfW (-2) rndW) = true ∧
    reviewsChildren (okOr (generate_reviews_xml dfW (-2) rndW)) = [] := by
  have h := generate_reviews_xml_negative_n dfW (-2) rndW (by decide)
  have h2 := h.2 ⟨by decide, by decide, by decide⟩
  exact ⟨by decide, h.1, h2.1, h2.2⟩

theorem buildRows_congr (df1 df2 : DataFrame) (rnd : RandOracle) (reps : Nat)
    (ht1 : df1.cols.contains "title" = true) (ht2 : df2.cols.contains "title" = true)
    {rs1 rs2 : List (String → String)}
    (h : List.Forall₂ (fun r1 r2 =>
      r1 "id" = r2 "id" ∧ r1 "link" = r2 "link" ∧ r1 "title" = r2 "title") rs1 rs2) :
    ∀ rid : Nat, buildRows df1 rnd reps rs1 rid = buildRows df2 rnd reps rs2 rid := by
  induction h with
  | nil => intro rid; rfl
  | @cons r1 r2 l1 l2 hpair hrest ih =>
    intro rid
    rw [show buildRows df1 rnd reps (r1 :: l1) rid
          = rowReviewBlock df1 r1 rid reps rnd ++ buildRows df1 rnd reps l1 (rid + reps) from rfl,
        show buildRows df2 rnd reps (r2 :: l2) rid
          = rowReviewBlock df2 r2 rid reps rnd ++ buildRows df2 rnd reps l2 (rid + reps) from rfl,
        ih (rid + reps)]
    obtain ⟨hi, hl, htt⟩ := hpair
    simp [rowReviewBlock, rowName, hi, hl, htt,
      (contains_eq_true_iff _ _).mp ht1, (contains_eq_true_iff _ _).mp ht2]

/-- C8: the builder's output depends only on the `id`, `link` and `title`
columns — two frames that agree on the presence of those three columns and
on every row's values at them (other columns arbitrary) produce the same
document under the same repeat count and draws. -/
theorem generate_reviews_xml_ignores_other_columns (df1 df2 : DataFrame) (n : Int)
    (rnd : RandOracle)
    (hid : "id" ∈ df1.cols ↔ "id" ∈ df2.cols)
    (hlink : "link" ∈ df1.cols ↔ "link" ∈ df2.cols)
    (htitle : "title" ∈ df1.cols ↔ "title" ∈ df2.cols)
    (hrows : List.Forall₂ (fun r1 r2 =>
      r1 "id" = r2 "id" ∧ r1 "link" = r2 "link" ∧ r1 "title" = r2 "title")
      df1.rows df2.rows) :
    (generate_reviews_xml df1 n rnd).toOption = (generate_reviews_xml df2 n rnd).toOption := by
  by_cases hm : missingCols df1 = []
  · have hall := (missingCols_eq_nil_iff df1).mp hm
    have hm2 : missingCols df2 = [] :=
      (missingCols_eq_nil_iff df2).mpr ⟨hid.mp hall.1, hlink.mp hall.2.1, htitle.mp hall.2.2⟩
    have ht1 : df1.cols.contains "title" = true := (contains_eq_true_iff _ _).mpr hall.2.2
    have ht2 : df2.cols.contains "title" = true :=
      (contains_eq_true_iff _ _).mpr (htitle.mp hall.2.2)
    unfold generate_reviews_xml
    rw [if_pos hm, if_pos hm2, buildRows_congr df1 df2 rnd (max 0 n).toNat ht1 ht2 hrows 1]
  · have hm2 : missingCols df2 ≠ [] := fun he => by
      have hall2 := (missingCols_eq_nil_iff df2).mp he
      exact hm ((missingCols_eq_nil_iff df1).mpr
        ⟨hid.mpr hall2.1, hlink.mpr hall2.2.1, htitle.mpr hall2.2.2⟩)
    unfold generate_reviews_xml
    rw [if_neg hm, if_neg hm2]
    rfl

/-- Frame with an extra unrecognized column `price`, same rows as `dfW`. -/
def dfExtra : DataFrame := ⟨["id", "link", "title", "price"], [rowW]⟩

/-- C8 witness: adding a `price` column leaves the produced document
unchanged. -/
theorem generate_reviews_xml_ignores_other_columns_witness :
    (("id" ∈ dfExtra.cols ↔ "id" ∈ dfW.cols) ∧
     ("link" ∈ dfExtra.cols ↔ "link" ∈ dfW.cols) ∧
     ("title" ∈ dfExtra.cols ↔ "title" ∈ dfW.cols)) ∧
    (generate_reviews_xml dfExtra 1 rndW).toOption
      = (generate_reviews_xml dfW 1 rndW).toOption := by
  refine ⟨⟨by decide, by decide, by decide⟩, ?_⟩
  exact generate_reviews_xml_ignores_other_columns dfExtra dfW 1 rndW
    (by decide) (by decide) (by decide)
    (List.Forall₂.cons ⟨rfl, rfl, rfl⟩ List.Forall₂.nil)

/-- C9: the loader's failure cases — a `gs://` descriptor missing its
bucket or object component fails with the ValueError the spec calls
InvalidSourceError; a well-formed `gs://` descriptor whose object does not
exist, and a non-URL local path that does not exist, fail with the
FileNotFoundError the spec calls SourceNotFoundError; each failure is an
`Except.error`, so no record set is returned. -/
theorem load_csv_anywhere_failure_cases (env : Env) (src : String) :
    (pyStartsWith (pyStrip src) "gs://" = true →
      ((partitionSlash (pyDrop (pyStrip src) 5)).1 = ""
        ∨ (partitionSlash (pyDrop (pyStrip src) 5)).2 = "") →
      load_csv_anywhere env src
        = Except.error (.valueError ("Invalid GCS path: " ++ pyStrip src))) ∧
    (pyStartsWith (pyStrip src) "gs://" = true →
      (partitionSlash (pyDrop (pyStrip src) 5)).1 ≠ "" →
      (partitionSlash (pyDrop (pyStrip src) 5)).2 ≠ "" →
      env.blobExists (partitionSlash (pyDrop (pyStrip src) 5)).1
        (partitionSlash (pyDrop (pyStrip src) 5)).2 = false →
      load_csv_anywhere env src
        = Except.error (.fileNotFound ("GCS object not found: " ++ pyStrip src))) ∧
    (pyStrip src ≠ "" →
      pyStartsWith (pyStrip src) "gs://" = false →
      pyStartsWith (pyStrip src) "http://" = false →
      pyStartsWith (pyStrip src) "https://" = false →
      env.localExists (pyStrip src) = false →
      load_csv_anywhere env src
        = Except.error (.fileNotFound ("Local CSV not found: " ++ pyStrip src))) := by
  refine ⟨?_, ?_, ?_⟩
  · intro hgs hbad
    have hne : ¬ (pyStrip src = "") := by
      intro h0
      rw [h0] at hgs
      exact absurd hgs (by decide)
    unfold load_csv_anywhere
    rw [if_neg hne, if_pos hgs, if_pos hbad]
  · intro hgs hb1 hb2 hex
    have hne : ¬ (pyStrip src = "") := by
      intro h0
      rw [h0] at hgs
      exact absurd hgs (by decide)
    unfold load_csv_anywhere
    rw [if_neg hne, if_pos hgs, if_neg (not_or.mpr ⟨hb1, hb2⟩),
      if_pos (show (!(env.blobExists (partitionSlash (pyDrop (pyStrip src) 5)).1
        (partitionSlash (pyDrop (pyStrip src) 5)).2)) = true by rw [hex]; rfl)]
  · intro hne hgs hh1 hh2 hloc
    unfold load_csv_anywhere
    rw [if_neg hne, if_neg (show ¬ (pyStartsWith (pyStrip src) "gs://" = true) by rw [hgs]; decide),
      if_neg (not_or.mpr ⟨by rw [hh1]; decide, by rw [hh2]; decide⟩),
      if_pos (show (!(env.localExists (pyStrip src))) = true by rw [hloc]; rfl)]

/-- Loader environment in which nothing exists. -/
def envEmpty : Env :=
  ⟨fun _ _ => false, fun _ _ => dfW, fun _ => false, fun _ => dfW⟩

/-- C9 witness: the three failure cases at concrete descriptors — a
bucket-only gs path, a well-formed gs path whose object is absent, and a
missing local file. -/
theorem load_csv_anywhere_failure_cases_witness :
    load_csv_anywhere envEmpty "gs://bucketonly"
      = Except.error (.valueError "Invalid GCS path: gs://bucketonly") ∧
    load_csv_anywhere envEmpty "gs://b/data.csv"
      = Except.error (.fileNotFound "GCS object not found: gs://b/data.csv") ∧
    load_csv_anywhere envEmpty "feed.csv"
      = Except.error (.fileNotFound "Local CSV not found: feed.csv") := by
  refine ⟨?_, ?_, ?_⟩
  · exact (load_csv_anywhere_failure_cases envEmpty "gs://bucketonly").1
      (by decide) (Or.inr (by decide))
  · exact (load_csv_anywhere_failure_cases envEmpty "gs://b/data.csv").2.1
      (by decide) (by decide) (by decide) rfl
  · exact (load_csv_anywhere_failure_cases envEmpty "feed.csv").2.2
      (by decide) (by decide) (by decide) (by decide) rfl
